import Mathlib

/-!
Shallow embedding of the multimodal consultation component of
MEDI_CORE_ASSIST (source file `src/unnamed/part_003`, the `AIConsultation`
React component). The component's hooks and refs become one explicit state
record; each event handler of the source becomes a state transformer.
Asynchronous awaits (the multipart POST) are modelled by passing the awaited
outcome as an explicit argument to the handler. Browser side effects are
logged in the state: issued network requests, object URLs created by
`URL.createObjectURL`, object URLs revoked by `URL.revokeObjectURL`
(the source contains no revoke call, so no operation below increments the
revoke counter), base64 decode attempts made by `atob`, and `track.stop`
calls on the microphone stream of the current recording session.
-/

/-- State of a `MediaRecorder`: `recording` after `start()`, `inactive`
after `stop()` has been processed. -/
inductive RecState where
  | recording
  | inactive
deriving DecidableEq, Repr

/-- An audio clip as built at lines 29-30 of the source:
`new File([new Blob(chunks, {type: 'audio/wav'})], 'recording.wav', ...)`.
The payload is the byte sequence of the blob. -/
structure AudioClip where
  payload : List Nat
  mime : String
  name : String
deriving DecidableEq, Repr

/-- An image file staged via `handleImageUpload`. -/
structure ImageAsset where
  payload : List Nat
  name : String
deriving DecidableEq, Repr

/-- The multipart form data built at lines 73-75: the `audio` part is
present iff `audioFile` is staged, the `image` part iff `imageFile` is. -/
structure ConsultRequest where
  audio : Option AudioClip
  image : Option ImageAsset
deriving DecidableEq, Repr

/-- The consultation endpoint's JSON reply: all three fields independently
optional. `response_audio`, when present, is base64 text. -/
structure ConsultReply where
  transcription : Option String
  analysis : Option String
  response_audio : Option String
deriving DecidableEq, Repr

/-- A failed `axios.post`: a network-level failure carries no response body
(`err.response` is undefined), a service failure carries the optional
`error` field of the response body (`err.response.data.error`). -/
inductive SubmitFailure where
  | transportError
  | serviceError (body : Option String)
deriving DecidableEq, Repr

/-- The server-supplied message of a failure, when one exists. -/
def failureMessage : SubmitFailure → Option String
  | SubmitFailure.transportError => none
  | SubmitFailure.serviceError b => b

/-- The whole component state: React `useState` hooks (`audioFile`,
`imageFile`, `transcription`, `imageAnalysis`, `responseAudio`, `loading`,
`error`, `isRecording`), the refs (`mediaRecorderRef` as `recorder`,
`audioChunksRef` as `chunks`), and logs of the browser side effects.
`streamStops` counts `track.stop()` calls on the stream of the current
recording session; `createdUrlCount` and `revokedUrlCount` count object
URLs created and revoked; a playback resource handle is the index of its
creation, held in `responseAudio`. -/
structure ComponentState where
  audioFile : Option AudioClip
  imageFile : Option ImageAsset
  transcription : Option String
  imageAnalysis : Option String
  responseAudio : Option Nat
  loading : Bool
  error : Option String
  isRecording : Bool
  recorder : Option RecState
  chunks : List (List Nat)
  streamStops : Nat
  requests : List ConsultRequest
  createdUrlCount : Nat
  revokedUrlCount : Nat
  decodeAttempts : Nat
deriving DecidableEq, Repr

/-- JavaScript truthiness of an optional string field: `undefined` and the
empty string are falsy, any non-empty string is truthy. This is the test
`if (data.response_audio)` at line 87. -/
def jsTruthy : Option String → Bool
  | none => false
  | some s => !(s == "")

/-- JavaScript `o || dflt` on an optional string: the default is taken when
the field is absent or the empty string (both falsy). This is
`err.response?.data?.error || '...'` at line 93. -/
def jsOrElse (o : Option String) (dflt : String) : String :=
  match o with
  | none => dflt
  | some m => if m == "" then dflt else m

/-- Sextet value of a base64 alphabet character (A-Z a-z 0-9 + /). -/
def b64Index (c : Char) : Option Nat :=
  if 'A' ≤ c ∧ c ≤ 'Z' then some (c.toNat - 65)
  else if 'a' ≤ c ∧ c ≤ 'z' then some (c.toNat - 97 + 26)
  else if '0' ≤ c ∧ c ≤ '9' then some (c.toNat - 48 + 52)
  else if c = '+' then some 62
  else if c = '/' then some 63
  else none

/-- Decode a run of base64 characters (padding already stripped) into
bytes: four sextets give three bytes, a final pair gives one byte, a final
triple gives two; a single leftover character or any character outside the
alphabet is an error, as in `atob`. -/
def decodeGroups : List Char → Option (List Nat)
  | [] => some []
  | [_] => none
  | [c1, c2] => do
      let a ← b64Index c1
      let b ← b64Index c2
      some [a * 4 + b / 16]
  | [c1, c2, c3] => do
      let a ← b64Index c1
      let b ← b64Index c2
      let c ← b64Index c3
      some [a * 4 + b / 16, b % 16 * 16 + c / 4]
  | c1 :: c2 :: c3 :: c4 :: rest => do
      let a ← b64Index c1
      let b ← b64Index c2
      let c ← b64Index c3
      let d ← b64Index c4
      let tail ← decodeGroups rest
      some ([a * 4 + b / 16, b % 16 * 16 + c / 4, c % 4 * 64 + d] ++ tail)

/-- Whether a character is ASCII whitespace, which `atob` strips. -/
def isB64Space (c : Char) : Bool :=
  c = ' ' ∨ c = '\t' ∨ c = '\n' ∨ c = '\r' ∨ c = '\x0c'

/-- Strip up to two trailing `=` padding characters. -/
def stripB64Padding (cs : List Char) : List Char :=
  match cs.reverse with
  | '=' :: '=' :: rest => rest.reverse
  | '=' :: rest => rest.reverse
  | _ => cs

/-- The browser's `atob`: strip ASCII whitespace, strip padding when the
length is a multiple of four, fail on a leftover length of one or on any
character outside the base64 alphabet, otherwise decode to bytes.
`none` models the `InvalidCharacterError` DOMException `atob` throws. -/
def decodeBase64 (s : String) : Option (List Nat) :=
  let cs := s.toList.filter (fun c => !isB64Space c)
  let cs := if cs.length % 4 = 0 then stripB64Padding cs else cs
  if cs.length % 4 = 1 then none else decodeGroups cs

/-- `startRecording` (lines 18-40), permission-granted path: a fresh stream
and recorder are installed, the chunk buffer is reset (line 22), recording
starts (lines 35-36). `streamStops` is reset to 0 because it counts stops
of the new session's stream. -/
def startRecording (st : ComponentState) : ComponentState :=
  { st with recorder := some RecState.recording
          , chunks := []
          , isRecording := true
          , streamStops := 0 }

/-- The `ondataavailable` handler (lines 24-26): push the chunk onto
`audioChunksRef.current` in arrival order. -/
def dataAvailable (st : ComponentState) (chunk : List Nat) : ComponentState :=
  { st with chunks := st.chunks ++ [chunk] }

/-- Deliver a sequence of chunks in order. -/
def arriveChunks (st : ComponentState) (cs : List (List Nat)) : ComponentState :=
  cs.foldl dataAvailable st

/-- Finalization of the recorded payload (lines 29-30): the Blob of the
accumulated chunks is their ordered concatenation, wrapped as the file
`recording.wav` of mime type `audio/wav`. -/
def finalizeClip (chunks : List (List Nat)) : AudioClip :=
  { payload := chunks.flatten, mime := "audio/wav", name := "recording.wav" }

/-- The `onstop` handler (lines 28-33). The statement order of the source
is: build the Blob and File (lines 29-30), `setAudioFile` (line 31), then
release the stream's tracks (line 32). There is no try/finally, so an
exception thrown by finalization (modelled by `finalizeThrows = true`)
propagates out of the handler before line 32 runs: neither the staged file
nor `streamStops` changes. -/
def onstopHandler (finalizeThrows : Bool) (st : ComponentState) : ComponentState :=
  if finalizeThrows then st
  else { st with audioFile := some (finalizeClip st.chunks)
               , streamStops := st.streamStops + 1 }

/-- `MediaRecorder.stop()`: when the recorder is recording it becomes
inactive and the `onstop` handler fires; when it is already inactive the
call aborts without effect (per the MediaStream Recording specification,
`stop()` on an inactive recorder is a no-op, not an error). -/
def recorderStop (finalizeThrows : Bool) (st : ComponentState) : ComponentState :=
  match st.recorder with
  | some RecState.recording =>
      onstopHandler finalizeThrows { st with recorder := some RecState.inactive }
  | _ => st

/-- `stopRecording` (lines 42-47): when `mediaRecorderRef.current` is null
nothing happens; otherwise `stop()` is called on the recorder and
`setIsRecording(false)` runs. -/
def stopRecording (finalizeThrows : Bool) (st : ComponentState) : ComponentState :=
  match st.recorder with
  | none => st
  | some _ => { recorderStop finalizeThrows st with isRecording := false }

/-- The message set at line 65 when both staging slots are empty. -/
def missingInputMsg : String :=
  "Please provide either an audio recording or an image for consultation."

/-- The fallback message of the catch block at line 93. -/
def genericFailureMsg : String := "Failed to process consultation"

/-- The synchronous prefix of `handleFullConsultation` past the guard
(lines 69-81): `setLoading(true)`, `setError(null)`, build the form data
from the staged slots, and issue the POST (logged in `requests`). -/
def submitStart (st : ComponentState) : ComponentState :=
  { st with loading := true
          , error := none
          , requests := st.requests ++ [{ audio := st.audioFile, image := st.imageFile }] }

/-- The success continuation (lines 83-91) plus the surrounding
catch/finally (lines 92-96): store `data.transcription` and
`data.analysis`; when `data.response_audio` is truthy, `atob` it (counted
in `decodeAttempts`) — on decode failure the exception reaches the catch
block, whose `err` carries no response, so the generic message is shown;
on decode success a Blob and a fresh object URL are created and stored in
`responseAudio`. The finally block clears `loading` on every path. -/
def applyReply (st : ComponentState) (reply : ConsultReply) : ComponentState :=
  let st1 := { st with transcription := reply.transcription
                     , imageAnalysis := reply.analysis }
  if jsTruthy reply.response_audio then
    let st2 := { st1 with decodeAttempts := st1.decodeAttempts + 1 }
    match decodeBase64 (reply.response_audio.getD "") with
    | none =>
        { st2 with error := some genericFailureMsg, loading := false }
    | some _ =>
        { st2 with createdUrlCount := st2.createdUrlCount + 1
                 , responseAudio := some st2.createdUrlCount
                 , loading := false }
  else { st1 with loading := false }

/-- The catch (lines 92-93) and finally (lines 94-96) for a failed POST:
`setError(err.response?.data?.error || 'Failed to process consultation')`
then `setLoading(false)`. -/
def applyFailure (st : ComponentState) (f : SubmitFailure) : ComponentState :=
  { st with error := some (jsOrElse (failureMessage f) genericFailureMsg)
          , loading := false }

/-- `handleFullConsultation` (lines 63-97). The guard at lines 64-67
rejects a submission with both slots empty before any of the try block
runs. Otherwise the request is issued and the awaited outcome — the parsed
reply, or the failure thrown by `axios.post` — is processed. -/
def handleFullConsultation (st : ComponentState)
    (outcome : Except SubmitFailure ConsultReply) : ComponentState :=
  if st.audioFile.isNone && st.imageFile.isNone then
    { st with error := some missingInputMsg }
  else
    match outcome with
    | Except.ok reply => applyReply (submitStart st) reply
    | Except.error f => applyFailure (submitStart st) f

/-- The consult button's disabled predicate (line 202):
`disabled={loading || (!audioFile && !imageFile)}`. -/
def consultDisabled (st : ComponentState) : Bool :=
  st.loading || (st.audioFile.isNone && st.imageFile.isNone)

/-- A user click on the consult button (lines 200-206): a disabled button
delivers no event; an enabled one runs `handleFullConsultation`, whose
synchronous prefix (guard, `setLoading(true)`, issuing the POST) completes
before any further UI event is processed. -/
def clickConsult (st : ComponentState) : ComponentState :=
  if consultDisabled st then st else submitStart st

/-- The component's initial state (lines 5-16): every hook empty or false,
no recorder, no side effects logged. -/
def initComponent : ComponentState :=
  { audioFile := none, imageFile := none, transcription := none
  , imageAnalysis := none, responseAudio := none, loading := false
  , error := none, isRecording := false, recorder := none, chunks := []
  , streamStops := 0, requests := [], createdUrlCount := 0
  , revokedUrlCount := 0, decodeAttempts := 0 }

/-- A small staged clip used by concrete witnesses. -/
def sampleClip : AudioClip :=
  { payload := [1, 2], mime := "audio/wav", name := "a.wav" }

/-- A state with an audio clip staged and no submission outstanding. -/
def readyConsult : ComponentState :=
  { initComponent with audioFile := some sampleClip }

/-- A reply carrying a decodable base64 audio payload. -/
def audioReply : ConsultReply :=
  { transcription := some "t", analysis := some "a"
  , response_audio := some "AAAA" }

/-- The state right after a recording has started from the initial state. -/
def recordingComponent : ComponentState := startRecording initComponent

/-- A state whose recorder exists but is inactive: a previous recording was
stopped, its clip staged, its stream released. -/
def stoppedComponent : ComponentState :=
  { initComponent with recorder := some RecState.inactive
                     , audioFile := some (finalizeClip [[1, 2]])
                     , chunks := [[1, 2]]
                     , streamStops := 1 }

/- ------------------------------------------------------------------- -/
/- Helper lemmas                                                       -/
/- ------------------------------------------------------------------- -/

/-- Delivering chunks in order appends them, in order, to the buffer and
touches nothing else. -/
theorem arriveChunks_eq (cs : List (List Nat)) :
    ∀ st : ComponentState, arriveChunks st cs = { st with chunks := st.chunks ++ cs } := by
  induction cs with
  | nil =>
      intro st
      simp [arriveChunks]
  | cons c cs ih =>
      intro st
      show arriveChunks (dataAvailable st c) cs = _
      rw [ih]
      simp [dataAvailable]

/- ------------------------------------------------------------------- -/
/- Claim theorems                                                      -/
/- ------------------------------------------------------------------- -/

/-- Claim C1, counterexample: starting a recording and stopping it while
finalization of the clip throws leaves `streamStops = 0` — the microphone
stream is never released, because the `track.stop()` loop (line 32) runs
after finalization (lines 29-31) with no try/finally protecting it. -/
theorem stopRecording_finalize_throw_skips_release :
    (startRecording initComponent).recorder = some RecState.recording
    ∧ (startRecording initComponent).isRecording = true
    ∧ (stopRecording true (startRecording initComponent)).streamStops = 0
    ∧ (stopRecording true (startRecording initComponent)).recorder
        = some RecState.inactive := by
  decide

/-- Claim C1, amended: `stopRecording` from the recording state releases
the microphone stream exactly once provided finalization of the clip
succeeds; a repeated `stopRecording` (the recorder now inactive) does not
release it again. When finalization throws, the release is skipped. -/
theorem stopRecording_releases_stream_once (st : ComponentState) (ft : Bool)
    (hrec : st.recorder = some RecState.recording)
    (hs : st.streamStops = 0) :
    (stopRecording false st).streamStops = 1
    ∧ (stopRecording ft (stopRecording false st)).streamStops = 1 := by
  constructor
  · simp [stopRecording, recorderStop, onstopHandler, hrec, hs]
  · simp [stopRecording, recorderStop, onstopHandler, hrec, hs]

/-- Witness for `stopRecording_releases_stream_once` at the state right
after `startRecording`. -/
theorem stopRecording_releases_stream_once_witness :
    (stopRecording false recordingComponent).streamStops = 1
    ∧ (stopRecording true (stopRecording false recordingComponent)).streamStops = 1 :=
  stopRecording_releases_stream_once recordingComponent true (by decide) (by decide)

/-- Claim C2: from a state with no submission outstanding and an input
staged, clicking the consult button issues exactly one network request,
and a second click while the first is outstanding is ignored (the button
is disabled by `loading`), leaving the request log at one new entry. -/
theorem clickConsult_single_request (st : ComponentState)
    (hload : st.loading = false)
    (hin : (st.audioFile.isNone && st.imageFile.isNone) = false) :
    (clickConsult st).requests
        = st.requests ++ [{ audio := st.audioFile, image := st.imageFile }]
    ∧ clickConsult (clickConsult st) = clickConsult st := by
  have hd : consultDisabled st = false := by
    simp [consultDisabled, hload, hin]
  constructor
  · simp [clickConsult, hd, submitStart]
  · have h2 : consultDisabled (submitStart st) = true := by
      simp [consultDisabled, submitStart]
    simp [clickConsult, hd, h2]

/-- Witness for `clickConsult_single_request` at a ready state with an
audio clip staged. -/
theorem clickConsult_single_request_witness :
    (clickConsult readyConsult).requests
        = readyConsult.requests
            ++ [{ audio := readyConsult.audioFile, image := readyConsult.imageFile }]
    ∧ clickConsult (clickConsult readyConsult) = clickConsult readyConsult :=
  clickConsult_single_request readyConsult (by decide) (by decide)

/-- Claim C3, counterexample: two consecutive successful consultations
whose replies carry response audio create two object URLs and revoke none;
after the second, the first resource (handle 0) has been superseded by
handle 1 without ever being released — the source has no
`URL.revokeObjectURL` call. -/
theorem playback_resource_leak :
    (handleFullConsultation readyConsult (Except.ok audioReply)).responseAudio = some 0
    ∧ (handleFullConsultation readyConsult (Except.ok audioReply)).createdUrlCount = 1
    ∧ (handleFullConsultation readyConsult (Except.ok audioReply)).revokedUrlCount = 0
    ∧ (handleFullConsultation (handleFullConsultation readyConsult (Except.ok audioReply))
        (Except.ok audioReply)).createdUrlCount = 2
    ∧ (handleFullConsultation (handleFullConsultation readyConsult (Except.ok audioReply))
        (Except.ok audioReply)).revokedUrlCount = 0
    ∧ (handleFullConsultation (handleFullConsultation readyConsult (Except.ok audioReply))
        (Except.ok audioReply)).responseAudio = some 1 := by
  decide

/-- Claim C3, amended: every successful reply with a decodable response
audio payload creates one fresh PlaybackResource and releases nothing: the
revoke count is unchanged, so superseded resources accumulate instead of
being released before the new one is created. -/
theorem new_resource_created_without_release (st : ComponentState)
    (tr an : Option String) (s : String) (bs : List Nat)
    (hin : (st.audioFile.isNone && st.imageFile.isNone) = false)
    (hne : (s == "") = false)
    (hdec : decodeBase64 s = some bs) :
    (handleFullConsultation st
        (Except.ok { transcription := tr, analysis := an, response_audio := some s })).createdUrlCount
        = st.createdUrlCount + 1
    ∧ (handleFullConsultation st
        (Except.ok { transcription := tr, analysis := an, response_audio := some s })).revokedUrlCount
        = st.revokedUrlCount
    ∧ (handleFullConsultation st
        (Except.ok { transcription := tr, analysis := an, response_audio := some s })).responseAudio
        = some st.createdUrlCount := by
  simp [handleFullConsultation, hin, submitStart, applyReply, jsTruthy, hne, hdec]

/-- Witness for `new_resource_created_without_release` with the payload
`AAAA`, which decodes to three zero bytes. -/
theorem new_resource_created_without_release_witness :
    (handleFullConsultation readyConsult
        (Except.ok { transcription := some "t", analysis := some "a"
                   , response_audio := some "AAAA" })).createdUrlCount
        = readyConsult.createdUrlCount + 1
    ∧ (handleFullConsultation readyConsult
        (Except.ok { transcription := some "t", analysis := some "a"
                   , response_audio := some "AAAA" })).revokedUrlCount
        = readyConsult.revokedUrlCount
    ∧ (handleFullConsultation readyConsult
        (Except.ok { transcription := some "t", analysis := some "a"
                   , response_audio := some "AAAA" })).responseAudio
        = some readyConsult.createdUrlCount :=
  new_resource_created_without_release readyConsult (some "t") (some "a") "AAAA"
    [0, 0, 0] (by decide) (by decide) (by decide)

/-- Claim C4: a submission attempted with both staging slots empty is
rejected by the guard at lines 64-67 before anything else runs: the only
change is the missing-input message in `error` — no request is logged, the
staged slots, `loading`, and every other field are unchanged, whatever the
transport would have answered. -/
theorem missing_input_rejected_locally (st : ComponentState)
    (outcome : Except SubmitFailure ConsultReply)
    (ha : st.audioFile = none) (hi : st.imageFile = none) :
    handleFullConsultation st outcome = { st with error := some missingInputMsg } := by
  simp [handleFullConsultation, ha, hi]

/-- Witness for `missing_input_rejected_locally` at the initial state. -/
theorem missing_input_rejected_locally_witness :
    handleFullConsultation initComponent (Except.error SubmitFailure.transportError)
      = { initComponent with error := some missingInputMsg } :=
  missing_input_rejected_locally initComponent
    (Except.error SubmitFailure.transportError) rfl rfl

/-- Claim C5: a failed submission clears `loading` (back to ready),
preserves both staged slots, and displays the failure's message — the
server-supplied message when the failure carries a non-empty one, the
fixed fallback text otherwise (lines 92-96). -/
theorem failure_preserves_staged_inputs (st : ComponentState) (f : SubmitFailure)
    (hin : (st.audioFile.isNone && st.imageFile.isNone) = false) :
    (handleFullConsultation st (Except.error f)).loading = false
    ∧ (handleFullConsultation st (Except.error f)).audioFile = st.audioFile
    ∧ (handleFullConsultation st (Except.error f)).imageFile = st.imageFile
    ∧ (handleFullConsultation st (Except.error f)).error
        = some (jsOrElse (failureMessage f) genericFailureMsg)
    ∧ (∀ m : String, f = SubmitFailure.serviceError (some m) → (m == "") = false →
        (handleFullConsultation st (Except.error f)).error = some m) := by
  refine ⟨?_, ?_, ?_, ?_, ?_⟩
  · simp [handleFullConsultation, hin, submitStart, applyFailure]
  · simp [handleFullConsultation, hin, submitStart, applyFailure]
  · simp [handleFullConsultation, hin, submitStart, applyFailure]
  · simp [handleFullConsultation, hin, submitStart, applyFailure]
  · intro m hm hne
    subst hm
    simp [handleFullConsultation, hin, submitStart, applyFailure, failureMessage,
      jsOrElse, hne]

/-- Witness for `failure_preserves_staged_inputs`: a 500 whose body is
`error: model unavailable` at a ready state with an audio clip staged. -/
theorem failure_preserves_staged_inputs_witness :
    (handleFullConsultation readyConsult
        (Except.error (SubmitFailure.serviceError (some "model unavailable")))).loading = false
    ∧ (handleFullConsultation readyConsult
        (Except.error (SubmitFailure.serviceError (some "model unavailable")))).audioFile
        = readyConsult.audioFile
    ∧ (handleFullConsultation readyConsult
        (Except.error (SubmitFailure.serviceError (some "model unavailable")))).imageFile
        = readyConsult.imageFile
    ∧ (handleFullConsultation readyConsult
        (Except.error (SubmitFailure.serviceError (some "model unavailable")))).error
        = some (jsOrElse (failureMessage (SubmitFailure.serviceError (some "model unavailable")))
            genericFailureMsg)
    ∧ (∀ m : String,
        SubmitFailure.serviceError (some "model unavailable")
          = SubmitFailure.serviceError (some m) → (m == "") = false →
        (handleFullConsultation readyConsult
          (Except.error (SubmitFailure.serviceError (some "model unavailable")))).error
          = some m) :=
  failure_preserves_staged_inputs readyConsult
    (SubmitFailure.serviceError (some "model unavailable")) (by decide)

/-- Claim C6: for every sequence of recorded chunks delivered in arrival
order — including the empty sequence — stopping the recording finalizes a
clip whose payload is their ordered concatenation, named `recording.wav`
with mime `audio/wav`; with no chunks the clip is empty but well-formed. -/
theorem finalized_clip_is_ordered_concat (st : ComponentState) (cs : List (List Nat)) :
    (stopRecording false (arriveChunks (startRecording st) cs)).audioFile
      = some { payload := cs.flatten, mime := "audio/wav", name := "recording.wav" }
    ∧ (stopRecording false (startRecording st)).audioFile
      = some { payload := [], mime := "audio/wav", name := "recording.wav" } := by
  constructor
  · rw [arriveChunks_eq]
    simp [startRecording, stopRecording, recorderStop, onstopHandler, finalizeClip]
  · simp [startRecording, stopRecording, recorderStop, onstopHandler, finalizeClip]

/-- Claim C7: a reply whose `response_audio` field is absent triggers no
decode attempt and creates no playback resource; the held playback handle
is untouched. This holds from every state: the guard at line 87 skips the
whole decode block when the field is undefined. -/
theorem absent_response_audio_no_decode (st : ComponentState) (tr an : Option String) :
    (handleFullConsultation st
        (Except.ok { transcription := tr, analysis := an, response_audio := none })).decodeAttempts
        = st.decodeAttempts
    ∧ (handleFullConsultation st
        (Except.ok { transcription := tr, analysis := an, response_audio := none })).createdUrlCount
        = st.createdUrlCount
    ∧ (handleFullConsultation st
        (Except.ok { transcription := tr, analysis := an, response_audio := none })).responseAudio
        = st.responseAudio := by
  cases hb : (st.audioFile.isNone && st.imageFile.isNone) with
  | true => simp [handleFullConsultation, hb]
  | false => simp [handleFullConsultation, hb, submitStart, applyReply, jsTruthy]

/-- Claim C8: a present, non-empty, non-decodable `response_audio` payload
makes the decode attempt fail (`atob` throws): no playback resource is
created, the held handle is untouched, the catch block surfaces the
fallback message, and the finally block clears `loading`. -/
theorem malformed_response_audio_no_resource (st : ComponentState)
    (tr an : Option String) (s : String)
    (hin : (st.audioFile.isNone && st.imageFile.isNone) = false)
    (hne : (s == "") = false)
    (hbad : decodeBase64 s = none) :
    (handleFullConsultation st
        (Except.ok { transcription := tr, analysis := an, response_audio := some s })).createdUrlCount
        = st.createdUrlCount
    ∧ (handleFullConsultation st
        (Except.ok { transcription := tr, analysis := an, response_audio := some s })).responseAudio
        = st.responseAudio
    ∧ (handleFullConsultation st
        (Except.ok { transcription := tr, analysis := an, response_audio := some s })).decodeAttempts
        = st.decodeAttempts + 1
    ∧ (handleFullConsultation st
        (Except.ok { transcription := tr, analysis := an, response_audio := some s })).error
        = some genericFailureMsg
    ∧ (handleFullConsultation st
        (Except.ok { transcription := tr, analysis := an, response_audio := some s })).loading
        = false := by
  simp [handleFullConsultation, hin, submitStart, applyReply, jsTruthy, hne, hbad]

/-- Witness for `malformed_response_audio_no_resource` with the payload
`%%%`, whose characters are outside the base64 alphabet. -/
theorem malformed_response_audio_no_resource_witness :
    (handleFullConsultation readyConsult
        (Except.ok { transcription := none, analysis := none
                   , response_audio := some "%%%" })).createdUrlCount
        = readyConsult.createdUrlCount
    ∧ (handleFullConsultation readyConsult
        (Except.ok { transcription := none, analysis := none
                   , response_audio := some "%%%" })).responseAudio
        = readyConsult.responseAudio
    ∧ (handleFullConsultation readyConsult
        (Except.ok { transcription := none, analysis := none
                   , response_audio := some "%%%" })).decodeAttempts
        = readyConsult.decodeAttempts + 1
    ∧ (handleFullConsultation readyConsult
        (Except.ok { transcription := none, analysis := none
                   , response_audio := some "%%%" })).error
        = some genericFailureMsg
    ∧ (handleFullConsultation readyConsult
        (Except.ok { transcription := none, analysis := none
                   , response_audio := some "%%%" })).loading
        = false :=
  malformed_response_audio_no_resource readyConsult none none "%%%"
    (by decide) (by decide) (by decide)

/-- Claim C9: `stopRecording` in any state whose recorder is not recording
(no recorder ever created, or an already-stopped one) is a total no-op:
the whole component state — staged clip, chunk buffer, stream-stop count,
recorder — is exactly unchanged, whether or not finalization would throw,
and no error is raised (the operation is a total function). -/
theorem stopRecording_not_recording_noop (st : ComponentState) (ft : Bool)
    (h1 : st.recorder ≠ some RecState.recording)
    (h2 : st.isRecording = false) :
    stopRecording ft st = st := by
  cases hrec : st.recorder with
  | none => simp [stopRecording, hrec]
  | some rs =>
      cases rs with
      | recording => exact absurd hrec h1
      | inactive =>
          simp only [stopRecording, recorderStop, hrec]
          cases st
          simp_all

/-- Witness for `stopRecording_not_recording_noop` at a state left by a
completed earlier recording session. -/
theorem stopRecording_not_recording_noop_witness :
    stopRecording true stoppedComponent = stoppedComponent :=
  stopRecording_not_recording_noop stoppedComponent true (by decide) (by decide)

/-- Claim C10: a reply whose `response_audio` is the empty string is
processed exactly like one whose field is absent — the resulting states
are equal — and in particular no decode is attempted, no playback resource
is created, and the held playback handle is untouched (so no playback
control appears that was not already there). -/
theorem empty_response_audio_like_absent (st : ComponentState) (tr an : Option String) :
    handleFullConsultation st
        (Except.ok { transcription := tr, analysis := an, response_audio := some "" })
      = handleFullConsultation st
        (Except.ok { transcription := tr, analysis := an, response_audio := none })
    ∧ (handleFullConsultation st
        (Except.ok { transcription := tr, analysis := an, response_audio := some "" })).decodeAttempts
        = st.decodeAttempts
    ∧ (handleFullConsultation st
        (Except.ok { transcription := tr, analysis := an, response_audio := some "" })).createdUrlCount
        = st.createdUrlCount
    ∧ (handleFullConsultation st
        (Except.ok { transcription := tr, analysis := an, response_audio := some "" })).responseAudio
        = st.responseAudio := by
  cases hb : (st.audioFile.isNone && st.imageFile.isNone) with
  | true => simp [handleFullConsultation, hb]
  | false => simp [handleFullConsultation, hb, submitStart, applyReply, jsTruthy]
